import Mathlib

/-!
Verification development for the inclusive voting web application.
The voice command engine (`voice.js`) and the core script (session and
vote storage, login validation) are shallowly embedded below.  Strings
are modelled as lists of characters; the browser interaction surface
(DOM element presence, visibility, and the results of the individual
selector queries used by the resolver chains) is modelled by the
`Surface` structure; timers (`setTimeout`) are modelled by explicit
snapshot indices or scheduled-restart counters.
-/

/-! ## String primitives (JavaScript semantics on `List Char`) -/

abbrev Str := List Char

/-- Characters of a string literal, used to write commands and keywords. -/
def strL (s : String) : Str := s.data

/-- JS regex word character class: ASCII letters, digits and underscore. -/
def isWordChar (c : Char) : Bool := c.isAlphanum || c = '_'

/-- JS whitespace as far as the engine's commands are concerned. -/
def isSpaceChar (c : Char) : Bool := c = ' ' || c = '\t' || c = '\n' || c = '\r'

/-- ASCII lower-casing, as `toLowerCase()` acts on the app's commands. -/
def jsToLower (c : Char) : Char :=
  match c with
  | 'A' => 'a' | 'B' => 'b' | 'C' => 'c' | 'D' => 'd' | 'E' => 'e' | 'F' => 'f'
  | 'G' => 'g' | 'H' => 'h' | 'I' => 'i' | 'J' => 'j' | 'K' => 'k' | 'L' => 'l'
  | 'M' => 'm' | 'N' => 'n' | 'O' => 'o' | 'P' => 'p' | 'Q' => 'q' | 'R' => 'r'
  | 'S' => 's' | 'T' => 't' | 'U' => 'u' | 'V' => 'v' | 'W' => 'w' | 'X' => 'x'
  | 'Y' => 'y' | 'Z' => 'z'
  | c => c

/-- JS `String.prototype.trim` on both ends. -/
def trim (s : Str) : Str :=
  ((s.dropWhile isSpaceChar).reverse.dropWhile isSpaceChar).reverse

/-- Characters kept by the punctuation-stripping `replace(/[^\w\s]/g, '')`. -/
def keepChar (c : Char) : Bool := isWordChar c || isSpaceChar c

/-- voice.js `normalizeCommand`: lower-case, trim, then strip punctuation. -/
def normalizeCommand (text : Str) : Str :=
  (trim (text.map jsToLower)).filter keepChar

/-- JS `String.prototype.includes`: substring containment. -/
def containsSub (w s : Str) : Bool :=
  match s with
  | [] => w.isEmpty
  | _ :: t => w.isPrefixOf s || containsSub w t

/-- Value of a digit string, as `parseInt` computes it on `\d+` captures. -/
def natOfDigits (ds : Str) : Nat := ds.foldl (fun n c => n * 10 + (c.toNat - 48)) 0

/-- Matcher for the regexes of shape `kw\s*(\d+)`: leftmost occurrence of the
    keyword that is followed (after maximal whitespace) by a digit; the
    captured group is the maximal digit run there. -/
def matchKwNum (kw : Str) : Str → Option Nat
  | [] => none
  | c :: rest =>
    if kw.isPrefixOf (c :: rest) then
      match ((c :: rest).drop kw.length).dropWhile isSpaceChar with
      | [] => matchKwNum kw rest
      | d :: ds =>
        if d.isDigit then some (natOfDigits (d :: ds.takeWhile Char.isDigit))
        else matchKwNum kw rest
    else matchKwNum kw rest

/-- Word-boundary test before a digit run (start of string or non-word char). -/
def boundaryOk : Option Char → Bool
  | none => true
  | some p => !isWordChar p

/-- Word-boundary test after a digit run (end of string or non-word char). -/
def afterOk : Str → Bool
  | [] => true
  | a :: _ => !isWordChar a

/-- Scanner for the regex `\b(\d+)\b`, tracking the previous character. -/
def bareScan : Option Char → Str → Option Nat
  | _, [] => none
  | prev, c :: rest =>
    if c.isDigit && boundaryOk prev then
      if afterOk (rest.dropWhile Char.isDigit) then
        some (natOfDigits (c :: rest.takeWhile Char.isDigit))
      else bareScan (some c) rest
    else bareScan (some c) rest

/-- Matcher for `/\b(\d+)\b/`: leftmost standalone digit run. -/
def findBareNum (s : Str) : Option Nat := bareScan none s

/-- The numeric-pattern loop of `handleVotingCommands`, in source order:
    candidate N, number N, vote N, select N, choose N, then a bare number. -/
def firstPatternMatch (cmd : Str) : Option Nat :=
  match matchKwNum (strL "candidate") cmd with
  | some v => some v
  | none =>
    match matchKwNum (strL "number") cmd with
    | some v => some v
    | none =>
      match matchKwNum (strL "vote") cmd with
      | some v => some v
      | none =>
        match matchKwNum (strL "select") cmd with
        | some v => some v
        | none =>
          match matchKwNum (strL "choose") cmd with
          | some v => some v
          | none => findBareNum cmd

/-- The `wordNumbers` table of `handleVotingCommands`, in insertion order. -/
def wordNumbers : List (Str × Nat) :=
  [(strL "one", 1), (strL "two", 2), (strL "three", 3), (strL "four", 4), (strL "five", 5),
   (strL "six", 6), (strL "seven", 7), (strL "eight", 8), (strL "nine", 9), (strL "ten", 10)]

/-- Word-number fallback: first table entry occurring as a substring,
    scanned in table order. -/
def wordScan (cmd : Str) : Option Nat :=
  (wordNumbers.find? (fun p => containsSub p.1 cmd)).map (fun p => p.2)

/-- Ordinal extraction of `handleVotingCommands`: the numeric-pattern loop
    sets `candidateNumber`, and the word table is scanned whenever that value
    is still falsy (never set, or set to the captured integer 0). -/
def extractOrdinal (cmd : Str) : Option Nat :=
  match firstPatternMatch cmd with
  | some v =>
    if v = 0 then
      match wordScan cmd with
      | some w => some w
      | none => some 0
    else some v
  | none => wordScan cmd

/-! ## The interaction surface

Element presence / visibility flags, and the outcome of each of the
individual selector queries used by the resolver chains.  `qConfirm i`
(resp. `qCancel i`) is the element found by the i-th selector of the modal
confirm (resp. cancel) chain, 0-indexed in source order; `qVote n i` is the
element found by the i-th lookup strategy for candidate `n`'s vote button
(six strategies in source order, the last being the scan over all
vote-capable buttons). -/

structure Surface where
  verifyBtn : Bool := false
  verifyBtnDisabled : Bool := false
  verifySection : Bool := false
  verifySectionVisible : Bool := false
  votingSection : Bool := false
  votingSectionVisible : Bool := false
  candidatesContainer : Bool := false
  qConfirm : Nat → Option Nat := fun _ => none
  qCancel : Nat → Option Nat := fun _ => none
  qVote : Nat → Nat → Option Nat := fun _ _ => none
  loginBtn : Bool := false
  voteLink : Bool := false
  profileBtn : Bool := false
  startBtn : Bool := false
  retryBtn : Bool := false

/-- The check `votingSection && votingSection.style.display !== 'none'`. -/
def isVotingVisible (s : Surface) : Bool := s.votingSection && s.votingSectionVisible

/-! ## Outcomes of one dispatch -/

/-- Resolution of a vote-for-ordinal action: target clicked on the first
    attempt, clicked on the single retry, or reported missing. -/
inductive VoteRes where
  | clicked (t : Nat)
  | clickedRetry (t : Nat)
  | notFound
deriving DecidableEq

/-- Outcome of `handleVotingCommands` on one normalized command. -/
inductive VOutcome where
  | verifyClick (sectionHidden : Bool)
  | verifyInProgress
  | verifyNotFound
  | confirmClick (sel : Nat) (t : Nat)
  | confirmPrompt
  | confirmSilent
  | cancelClick (sel : Nat) (t : Nat)
  | vote (n : Nat) (r : VoteRes)
  | readList
  | goBack
  | helpVerify
  | helpVoting
  | helpDefault
deriving DecidableEq

/-- The utterances spoken by the engine, one constructor per `speak` call
    relevant to the embedded handlers. -/
inductive SpeechMsg where
  | startingVerification
  | verifyInProgressMsg
  | verifyMissing
  | confirmingVote
  | selectCandidateFirst
  | voteCancelled
  | votingFor (n : Nat)
  | candidateNotFound (n : Nat)
  | readListMsg
  | goingBack
  | helpVerifyMsg
  | helpVotingMsg
  | helpDefaultMsg
  | micDenied
  | dispatchError
deriving DecidableEq

/-- Speech attached to a vote resolution: both click paths announce the vote,
    the exhausted path announces that the candidate was not found. -/
def voteSpeech (n : Nat) : VoteRes → List SpeechMsg
  | .clicked _ => [.votingFor n]
  | .clickedRetry _ => [.votingFor n]
  | .notFound => [.candidateNotFound n]

/-- What one voting-page outcome speaks to the user. -/
def speechOf : VOutcome → List SpeechMsg
  | .verifyClick _ => [.startingVerification]
  | .verifyInProgress => [.verifyInProgressMsg]
  | .verifyNotFound => [.verifyMissing]
  | .confirmClick _ _ => [.confirmingVote]
  | .confirmPrompt => [.selectCandidateFirst]
  | .confirmSilent => []
  | .cancelClick _ _ => [.voteCancelled]
  | .vote n r => voteSpeech n r
  | .readList => [.readListMsg]
  | .goBack => [.goingBack]
  | .helpVerify => [.helpVerifyMsg]
  | .helpVoting => [.helpVotingMsg]
  | .helpDefault => [.helpDefaultMsg]

/-! ## Voting-page handler (voice.js `handleVotingCommands`) -/

/-- Trigger phrases of the verify-identity branch. -/
def verifyPhrase (cmd : Str) : Bool :=
  containsSub (strL "verify identity") cmd || containsSub (strL "verify") cmd ||
  containsSub (strL "start verification") cmd || containsSub (strL "begin verification") cmd

/-- Trigger phrases of the modal-confirm branch. -/
def confirmPhrase (cmd : Str) : Bool :=
  containsSub (strL "confirm") cmd || containsSub (strL "yes") cmd ||
  containsSub (strL "confirm vote") cmd

/-- Trigger phrases of the modal-cancel branch. -/
def cancelPhrase (cmd : Str) : Bool :=
  containsSub (strL "cancel") cmd || containsSub (strL "no") cmd

/-- The five-selector fallback chain used for both modal buttons:
    first non-empty query result wins, together with its chain position. -/
def resolveChain (q : Nat → Option Nat) : Option (Nat × Nat) :=
  match q 0 with
  | some t => some (0, t)
  | none =>
    match q 1 with
    | some t => some (1, t)
    | none =>
      match q 2 with
      | some t => some (2, t)
      | none =>
        match q 3 with
        | some t => some (3, t)
        | none =>
          match q 4 with
          | some t => some (4, t)
          | none => none

/-- Verify-identity branch: returns `some` exactly when one of its trigger
    phrases occurs, mirroring the early returns of the source. -/
def verifyStage (cmd : Str) (s : Surface) : Option VOutcome :=
  if verifyPhrase cmd then
    some (if s.verifyBtn then
            if (!s.verifySection || s.verifySectionVisible) && !s.verifyBtnDisabled then
              .verifyClick false
            else if s.verifyBtnDisabled then .verifyInProgress
            else .verifyClick true
          else .verifyNotFound)
  else none

/-- Modal-confirm branch: resolves through the selector chain; on exhaustion
    it prompts for a candidate only when the voting section is visible,
    otherwise it returns without speaking. -/
def confirmStage (cmd : Str) (s : Surface) : Option VOutcome :=
  if confirmPhrase cmd then
    some (match resolveChain s.qConfirm with
          | some (i, t) => .confirmClick i t
          | none => if isVotingVisible s then .confirmPrompt else .confirmSilent)
  else none

/-- Modal-cancel branch: clicks the first chain hit; on exhaustion the source
    does not return, so control falls through to the later stages. -/
def cancelStage (cmd : Str) (s : Surface) : Option VOutcome :=
  if cancelPhrase cmd then
    match resolveChain s.qCancel with
    | some (i, t) => some (.cancelClick i t)
    | none => none
  else none

/-- The "looks like a vote" gate guarding vote emission, for a command whose
    extracted ordinal is `n` (truthy at this point in the source). -/
def isVoteCommand (cmd : Str) (s : Surface) (n : Nat) : Bool :=
  containsSub (strL "vote") cmd || containsSub (strL "select") cmd ||
  containsSub (strL "choose") cmd ||
  (isVotingVisible s && (containsSub (strL "candidate") cmd || containsSub (strL "number") cmd)) ||
  wordNumbers.any (fun p => containsSub p.1 cmd) ||
  (isVotingVisible s && !(n == 0))

/-- `findVoteButton`: the six lookup strategies in source order, first
    non-empty result wins. -/
def findVoteButton (s : Surface) (n : Nat) : Option Nat :=
  match s.qVote n 0 with
  | some t => some t
  | none =>
    match s.qVote n 1 with
    | some t => some t
    | none =>
      match s.qVote n 2 with
      | some t => some t
      | none =>
        match s.qVote n 3 with
        | some t => some t
        | none =>
          match s.qVote n 4 with
          | some t => some t
          | none => s.qVote n 5

/-- Milliseconds before the single re-invocation of `findVoteButton`. -/
def retryDelayMs : Nat := 200

/-- Vote-button resolution with the single bounded retry: `snap k` is the
    interaction surface at the k-th lookup attempt; only snapshots 0 and 1
    are ever consulted. -/
def resolveVote (n : Nat) (snap : Nat → Surface) : VoteRes :=
  match findVoteButton (snap 0) n with
  | some t => .clicked t
  | none =>
    match findVoteButton (snap 1) n with
    | some t => .clickedRetry t
    | none => .notFound

/-- Ordinal-vote stage: fires when an ordinal in 1..10 was extracted and the
    vote gate passes. -/
def ordinalStage (cmd : Str) (snap : Nat → Surface) : Option VOutcome :=
  match extractOrdinal cmd with
  | none => none
  | some n =>
    if 1 ≤ n ∧ n ≤ 10 then
      if isVoteCommand cmd (snap 0) n then some (.vote n (resolveVote n snap))
      else none
    else none

/-- Remaining stages: candidate-list reading, going back, and the contextual
    help message chosen from the visible sections. -/
def tailStage (cmd : Str) (s : Surface) : VOutcome :=
  if containsSub (strL "read candidate") cmd || containsSub (strL "candidate list") cmd ||
     containsSub (strL "list candidates") cmd then .readList
  else if containsSub (strL "go back") cmd || containsSub (strL "back") cmd ||
          containsSub (strL "return") cmd then .goBack
  else if s.verifySection && s.verifySectionVisible then .helpVerify
  else if isVotingVisible s then .helpVoting
  else .helpDefault

/-- voice.js `handleVotingCommands`, stage by stage in source order.
    `snap 0` is the surface when the command is dispatched, `snap 1` the
    surface at the retried vote-button lookup. -/
def handleVotingCommands (cmd : Str) (snap : Nat → Surface) : VOutcome :=
  match verifyStage cmd (snap 0) with
  | some o => o
  | none =>
    match confirmStage cmd (snap 0) with
    | some o => o
    | none =>
      match cancelStage cmd (snap 0) with
      | some o => o
      | none =>
        match ordinalStage cmd snap with
        | some o => o
        | none => tailStage cmd (snap 0)

/-! ## The other per-context handlers -/

/-- Outcome of `handleHomeCommands`. -/
inductive HomeOutcome where
  | navVotingClick
  | navVotingRedirect
  | readRules
  | logout
  | profileClick (present : Bool)
  | alreadyHome
  | homeHelp
deriving DecidableEq

/-- voice.js `handleHomeCommands`. -/
def handleHomeCommands (cmd : Str) (s : Surface) : HomeOutcome :=
  if containsSub (strL "voting page") cmd || containsSub (strL "vote now") cmd ||
     containsSub (strL "go to voting") cmd then
    if s.voteLink then .navVotingClick else .navVotingRedirect
  else if containsSub (strL "read rules") cmd || containsSub (strL "rules") cmd then .readRules
  else if containsSub (strL "log out") cmd || containsSub (strL "logout") cmd then .logout
  else if containsSub (strL "profile") cmd || containsSub (strL "open profile") cmd then
    .profileClick s.profileBtn
  else if containsSub (strL "home") cmd then .alreadyHome
  else .homeHelp

/-- Outcome of `handleLoginCommands`. -/
inductive LoginOutcome where
  | loginAttempt (btnPresent : Bool)
  | clearForm
  | backOnLogin
  | loginHelp
deriving DecidableEq

/-- voice.js `handleLoginCommands`. -/
def handleLoginCommands (cmd : Str) (s : Surface) : LoginOutcome :=
  if containsSub (strL "login") cmd || containsSub (strL "log in") cmd then
    .loginAttempt s.loginBtn
  else if containsSub (strL "clear") cmd then .clearForm
  else if containsSub (strL "back") cmd then .backOnLogin
  else .loginHelp

/-- Outcome of `handleFaceVerificationCommands`. -/
inductive FaceOutcome where
  | startVerif (btnPresent : Bool)
  | retryVerif (btnPresent : Bool)
  | faceHelp
deriving DecidableEq

/-- voice.js `handleFaceVerificationCommands`. -/
def handleFaceVerificationCommands (cmd : Str) (s : Surface) : FaceOutcome :=
  if containsSub (strL "start") cmd || containsSub (strL "verify") cmd ||
     containsSub (strL "begin") cmd then .startVerif s.startBtn
  else if containsSub (strL "retry") cmd || containsSub (strL "try again") cmd then
    .retryVerif s.retryBtn
  else .faceHelp

/-! ## The router (voice.js `handleVoiceCommand`) -/

/-- Which handler ran, together with its outcome. -/
inductive Routed where
  | voting (o : VOutcome)
  | login (o : LoginOutcome)
  | home (o : HomeOutcome)
  | face (o : FaceOutcome)
  | noHandler
deriving DecidableEq

/-- The voting-page markers probed by the router before trusting the stored
    page context. -/
def votingMarkers (s : Surface) : Bool :=
  s.verifyBtn || s.votingSection || s.candidatesContainer

/-- voice.js `handleVoiceCommand`: normalize, force voting-context handling
    when a voting-page marker is present, otherwise switch on the stored
    page string (with the source's defensive re-probe in the default case). -/
def handleVoiceCommand (command page : Str) (snap : Nat → Surface) : Routed :=
  if votingMarkers (snap 0) then .voting (handleVotingCommands (normalizeCommand command) snap)
  else if page = strL "login" then .login (handleLoginCommands (normalizeCommand command) (snap 0))
  else if page = strL "home" then .home (handleHomeCommands (normalizeCommand command) (snap 0))
  else if page = strL "voting" then .voting (handleVotingCommands (normalizeCommand command) snap)
  else if page = strL "face-verification" then
    .face (handleFaceVerificationCommands (normalizeCommand command) (snap 0))
  else if (snap 0).verifyBtn || (snap 0).votingSection then
    .voting (handleVotingCommands (normalizeCommand command) snap)
  else .noHandler

/-! ## Listening session manager (recognition event handlers) -/

/-- Mutable listening flags of voice.js. -/
structure VoiceState where
  isAlwaysOn : Bool
  isListening : Bool
deriving DecidableEq

/-- Effect of one `recognition.onerror` event: the state afterwards, how many
    delayed restarts were scheduled by the event, and what was spoken. -/
structure ErrOutcome where
  state : VoiceState
  restartsScheduled : Nat
  spoken : List SpeechMsg
deriving DecidableEq

/-- Milliseconds before the restart scheduled by `onerror`. -/
def restartDelayMs : Nat := 500

/-- voice.js `recognition.onerror`: transient errors (`no-speech`, `aborted`)
    with always-on enabled schedule exactly one delayed restart; the
    permission error `not-allowed` speaks an explanation and disables
    always-on mode (which also stops listening), scheduling nothing. -/
def onError (err : Str) (st : VoiceState) : ErrOutcome :=
  if st.isAlwaysOn = true ∧ (err = strL "no-speech" ∨ err = strL "aborted") then
    { state := st, restartsScheduled := 1, spoken := [] }
  else if err = strL "not-allowed" then
    { state := { isAlwaysOn := false, isListening := false },
      restartsScheduled := 0, spoken := [.micDenied] }
  else
    { state := st, restartsScheduled := 0, spoken := [] }

/-- voice.js `recognition.onend`: clears the listening flag and schedules one
    delayed restart exactly when always-on mode is still enabled. -/
def onEnd (st : VoiceState) : VoiceState × Nat :=
  ({ st with isListening := false }, if st.isAlwaysOn then 1 else 0)

/-- Effect of one `recognition.onresult` event. -/
structure ResultOutcome where
  state : VoiceState
  spoken : List SpeechMsg
deriving DecidableEq

/-- voice.js `recognition.onresult`: the dispatch of the transcript runs
    inside `try`/`catch`.  A dispatcher that may raise is modelled as a
    function into `Except`; a raised exception is caught, an apology is
    spoken, and the session state is untouched — nothing propagates to the
    caller, as the total return type shows. -/
def onResult (st : VoiceState) (dispatch : Str → Except Str (List SpeechMsg))
    (transcript : Str) : ResultOutcome :=
  match dispatch transcript with
  | .ok msgs => { state := st, spoken := msgs }
  | .error _ => { state := st, spoken := [.dispatchError] }

/-! ## Persistent store (core script: session, vote storage, validation)

`localStorage` is a string-to-string map; the per-user voted flags live
under keys `has_voted_<aadhar>` and are modelled verbatim in `kv`.  The
votes array lives under the `votes` key as JSON; since `JSON.parse` of
`JSON.stringify` is the identity on these plain records, the array is
modelled directly as the `votes` field. -/

/-- One record pushed by `storeVote` (the ISO date string is determined by
    the timestamp and omitted). -/
structure VoteRecord where
  aadhar : Str
  candidate : Str
  timestamp : Nat
deriving DecidableEq

/-- The persistent store. -/
structure Store where
  kv : List (Str × Str)
  votes : List VoteRecord
deriving DecidableEq

/-- `localStorage.getItem` on the flag map: most recent binding wins. -/
def getItem (st : Store) (k : Str) : Option Str :=
  (st.kv.find? (fun p => p.1 == k)).map (fun p => p.2)

/-- `localStorage.setItem` on the flag map. -/
def setItem (st : Store) (k v : Str) : Store :=
  { st with kv := (k, v) :: st.kv }

/-- Key of the per-user voted flag: `HAS_VOTED_PREFIX + aadhar`. -/
def votedKey (aadhar : Str) : Str := strL "has_voted_" ++ aadhar

/-- Core script `hasUserVoted`: the stored flag must equal the string "true". -/
def hasUserVoted (st : Store) (aadhar : Str) : Bool :=
  getItem st (votedKey aadhar) == some (strL "true")

/-- Core script `markUserAsVoted`. -/
def markUserAsVoted (st : Store) (aadhar : Str) : Store :=
  setItem st (votedKey aadhar) (strL "true")

/-- Core script `storeVote`: append the vote record, then mark the user as
    voted; the success flag mirrors the source's `return true` path (the
    `catch` path is unreachable in the model, where `setItem` is total). -/
def storeVote (st : Store) (aadhar candidate : Str) (timestamp : Nat) : Bool × Store :=
  (true, markUserAsVoted { st with votes := st.votes ++ [⟨aadhar, candidate, timestamp⟩] } aadhar)

/-! ## Login validation (core script `validateLogin`) -/

/-- Result of `validateLogin`. -/
structure LoginResult where
  valid : Bool
  message : Str
deriving DecidableEq

def msgEnterAadhar : Str := strL "Please enter your Aadhar Number."

def msgEnterPassword : Str := strL "Please enter your Password."

def msgAadhar12 : Str := strL "Aadhar Number must be 12 digits."

def msgLoginOk : Str := strL "Login successful."

/-- The regex `^\d{12}$` applied by `validateLogin`. -/
def is12Digits (l : Str) : Bool := l.length == 12 && l.all Char.isDigit

/-- Core script `validateLogin`.  The source's `!aadhar || aadhar.trim()===''`
    is equivalent to the trimmed string being empty (the empty string is the
    only falsy string), and likewise for the password. -/
def validateLogin (aadhar password : Str) : LoginResult :=
  if trim aadhar = [] then { valid := false, message := msgEnterAadhar }
  else if trim password = [] then { valid := false, message := msgEnterPassword }
  else if is12Digits (trim aadhar) = false then { valid := false, message := msgAadhar12 }
  else { valid := true, message := msgLoginOk }

/-! ## Concrete surfaces used by examples and witnesses -/

/-- An empty interaction surface (home page, say): no voting markers. -/
def surfPlain : Surface := {}

/-- A voting page with the voting section visible and candidate 7's vote
    button found by the first lookup strategy (handle 70). -/
def surfVote7 : Surface :=
  { votingSection := true, votingSectionVisible := true, candidatesContainer := true,
    qVote := fun n i => if n = 7 ∧ i = 0 then some 70 else none }

def snapPlain : Nat → Surface := fun _ => surfPlain

def snapVote7 : Nat → Surface := fun _ => surfVote7

/-! ## Helper lemmas -/

theorem jsToLower_eq_cases (c : Char) :
    jsToLower c = c ∨ jsToLower c ∈ ['a', 'b', 'c', 'd', 'e', 'f', 'g', 'h', 'i', 'j', 'k', 'l',
      'm', 'n', 'o', 'p', 'q', 'r', 's', 't', 'u', 'v', 'w', 'x', 'y', 'z'] := by
  unfold jsToLower
  split <;> first | exact Or.inl rfl | exact Or.inr (by decide)

theorem jsToLower_idem (c : Char) : jsToLower (jsToLower c) = jsToLower c := by
  rcases jsToLower_eq_cases c with h | h
  · rw [h]
    exact h
  · generalize jsToLower c = x at h ⊢
    fin_cases h <;> decide

theorem mem_of_mem_dropWhile {p : Char → Bool} {c : Char} {l : Str}
    (h : c ∈ l.dropWhile p) : c ∈ l :=
  (List.dropWhile_sublist p).mem h

theorem mem_trim {c : Char} {l : Str} (h : c ∈ trim l) : c ∈ l := by
  unfold trim at h
  rw [List.mem_reverse] at h
  have h2 := mem_of_mem_dropWhile h
  rw [List.mem_reverse] at h2
  exact mem_of_mem_dropWhile h2

theorem map_fix {f : Char → Char} : ∀ l : Str, (∀ c ∈ l, f c = c) → l.map f = l := by
  intro l
  induction l with
  | nil => intro _; rfl
  | cons a t ih =>
    intro h
    simp only [List.map_cons]
    rw [h a (by simp), ih (fun c hc => h c (by simp [hc]))]

theorem normalize_chars {s : Str} {c : Char} (h : c ∈ normalizeCommand s) :
    keepChar c = true ∧ jsToLower c = c := by
  unfold normalizeCommand at h
  rw [List.mem_filter] at h
  refine ⟨h.2, ?_⟩
  have h2 := mem_trim h.1
  rw [List.mem_map] at h2
  obtain ⟨d, _, hd⟩ := h2
  rw [← hd, jsToLower_idem]

theorem tailStage_ne_vote (cmd : Str) (s : Surface) (n : Nat) (r : VoteRes) :
    tailStage cmd s ≠ VOutcome.vote n r := by
  unfold tailStage
  split_ifs <;> simp

theorem is12Digits_ne_nil {l : Str} (h : is12Digits l = true) : l ≠ [] := by
  intro hl
  subst hl
  simp [is12Digits] at h

/-! ## Claim theorems -/

/-- Claim C7 (amended): the normalized command is the utterance lower-cased,
    trimmed, then punctuation-stripped, but normalization is not idempotent:
    renormalizing an already-normalized command equals trimming it (stripping
    punctuation can expose leading or trailing whitespace that a second pass
    then removes), so it is the identity exactly when the normalized command
    has no such edge whitespace. -/
theorem normalize_renormalize (s : Str) :
    normalizeCommand (normalizeCommand s) = trim (normalizeCommand s)
    ∧ (normalizeCommand (normalizeCommand s) = normalizeCommand s ↔
        trim (normalizeCommand s) = normalizeCommand s) := by
  have hmap : (normalizeCommand s).map jsToLower = normalizeCommand s :=
    map_fix _ (fun c hc => (normalize_chars hc).2)
  have hfilter : (trim (normalizeCommand s)).filter keepChar = trim (normalizeCommand s) :=
    List.filter_eq_self.mpr (fun c hc => (normalize_chars (mem_trim hc)).1)
  have key : ∀ t : Str, t.map jsToLower = t → (trim t).filter keepChar = trim t →
      normalizeCommand t = trim t := by
    intro t h1 h2
    unfold normalizeCommand
    rw [h1, h2]
  have hmain := key (normalizeCommand s) hmap hfilter
  exact ⟨hmain, by rw [hmain]⟩

theorem normalize_renormalize_witness :
    normalizeCommand (normalizeCommand (strL "go home ")) =
      trim (normalizeCommand (strL "go home ")) :=
  (normalize_renormalize (strL "go home ")).1

/-- Claim C7 counterexample: normalizing "hi !" yields "hi " (the stripped
    bang exposes a trailing space), and normalizing that again yields "hi",
    so normalization is not the identity on already-normalized commands. -/
theorem normalize_not_idem_cx :
    normalizeCommand (strL "hi !") = strL "hi "
    ∧ normalizeCommand (normalizeCommand (strL "hi !")) ≠ normalizeCommand (strL "hi !") :=
  ⟨by decide, by decide⟩

/-- Claim C2 (amended): extraction tries the numeric patterns in the fixed
    source order and keeps the first match's captured integer when it is
    nonzero; the word-number table is scanned (in table order, not utterance
    order) whenever no numeric pattern matched or the captured integer was 0,
    because the source tests JavaScript truthiness rather than presence.
    The concrete examples of the claim all hold. -/
theorem extractOrdinal_priority :
    (∀ cmd v, firstPatternMatch cmd = some v → v ≠ 0 → extractOrdinal cmd = some v)
    ∧ (∀ cmd, firstPatternMatch cmd = none → extractOrdinal cmd = wordScan cmd)
    ∧ extractOrdinal (strL "vote for candidate 7") = some 7
    ∧ extractOrdinal (strL "choose three") = some 3
    ∧ extractOrdinal (strL "hello") = none
    ∧ extractOrdinal (strL "nine two") = some 2 := by
  refine ⟨?_, ?_, by decide, by decide, by decide, by decide⟩
  · intro cmd v h hv
    unfold extractOrdinal
    rw [h]
    simp [hv]
  · intro cmd h
    unfold extractOrdinal
    rw [h]

theorem extractOrdinal_priority_witness : extractOrdinal (strL "select 4") = some 4 :=
  extractOrdinal_priority.1 (strL "select 4") 4 (by decide) (by decide)

/-- Claim C2 counterexample: on "vote 0 one" the numeric pattern "vote N"
    matches with captured integer 0, yet extraction returns 1 from the word
    table, because 0 is falsy and re-triggers the word-number scan. -/
theorem extractOrdinal_zero_cx :
    firstPatternMatch (strL "vote 0 one") = some 0
    ∧ extractOrdinal (strL "vote 0 one") = some 1 :=
  ⟨by decide, by decide⟩

/-- Claim C1 (amended): for a normalized command that reaches the ordinal
    stage (none of the earlier verify / confirm / cancel branches returned)
    and whose extracted ordinal is n with 1 ≤ n ≤ 10, the voting handler
    emits a vote action for candidate n exactly when the command passes the
    vote gate; the bare command "7" with the voting section visible yields a
    vote for candidate 7, while "7" routed on the home context yields only
    the help response.  (As stated the claim fails: a command such as
    "yes 3" contains ordinal 3 and passes the gate but is consumed by the
    modal-confirm branch first.) -/
theorem vote_gate (cmd : Str) (snap : Nat → Surface) (n : Nat)
    (hv : verifyStage cmd (snap 0) = none)
    (hc : confirmStage cmd (snap 0) = none)
    (hx : cancelStage cmd (snap 0) = none)
    (hn : extractOrdinal cmd = some n)
    (hr : 1 ≤ n ∧ n ≤ 10) :
    ((∃ r, handleVotingCommands cmd snap = .vote n r) ↔ isVoteCommand cmd (snap 0) n = true)
    ∧ handleVoiceCommand (strL "7") (strL "voting") snapVote7 = .voting (.vote 7 (.clicked 70))
    ∧ handleVoiceCommand (strL "7") (strL "home") snapPlain = .home .homeHelp := by
  refine ⟨?_, by decide, by decide⟩
  have hE : handleVotingCommands cmd snap
      = if isVoteCommand cmd (snap 0) n = true then VOutcome.vote n (resolveVote n snap)
        else tailStage cmd (snap 0) := by
    simp only [handleVotingCommands, hv, hc, hx, ordinalStage, hn]
    rw [if_pos hr]
    by_cases hg : isVoteCommand cmd (snap 0) n = true
    · rw [if_pos hg, if_pos hg]
    · rw [if_neg hg, if_neg hg]
  rw [hE]
  by_cases hg : isVoteCommand cmd (snap 0) n = true
  · rw [if_pos hg]
    exact ⟨fun _ => hg, fun _ => ⟨resolveVote n snap, rfl⟩⟩
  · rw [if_neg hg]
    constructor
    · rintro ⟨r, hr2⟩
      exact absurd hr2 (tailStage_ne_vote cmd (snap 0) n r)
    · intro h
      exact absurd h hg

theorem vote_gate_witness :
    ((∃ r, handleVotingCommands (strL "vote 3") snapVote7 = .vote 3 r) ↔
      isVoteCommand (strL "vote 3") (snapVote7 0) 3 = true)
    ∧ handleVoiceCommand (strL "7") (strL "voting") snapVote7 = .voting (.vote 7 (.clicked 70))
    ∧ handleVoiceCommand (strL "7") (strL "home") snapPlain = .home .homeHelp :=
  vote_gate (strL "vote 3") snapVote7 3 (by decide) (by decide) (by decide) (by decide)
    (by decide)

/-- Claim C1 counterexample: "yes 3" on the voting surface with the voting
    section visible contains ordinal 3 and passes the vote gate, but the
    modal-confirm branch consumes it first (prompting to select a candidate),
    so no vote action for candidate 3 is emitted — refuting the claimed
    "if and only if". -/
theorem vote_gate_cx :
    extractOrdinal (strL "yes 3") = some 3
    ∧ isVoteCommand (strL "yes 3") (snapVote7 0) 3 = true
    ∧ handleVotingCommands (strL "yes 3") snapVote7 = .confirmPrompt
    ∧ ∀ r, handleVotingCommands (strL "yes 3") snapVote7 ≠ .vote 3 r := by
  refine ⟨by decide, by decide, by decide, ?_⟩
  intro r h
  rw [show handleVotingCommands (strL "yes 3") snapVote7 = .confirmPrompt from by decide] at h
  exact VOutcome.noConfusion h

/-- Claim C3: whenever a voting-page marker (verify control, voting section,
    or candidates container) is present on the interaction surface, the
    router applies voting-context handling regardless of the stored
    page-context value; only with no marker present does the stored context
    select the handler (login, home, voting, face-verification, or no
    handler for an unknown context). -/
theorem router_override (command p1 p2 : Str) (snap : Nat → Surface) :
    (votingMarkers (snap 0) = true →
      handleVoiceCommand command p1 snap
        = .voting (handleVotingCommands (normalizeCommand command) snap)
      ∧ handleVoiceCommand command p1 snap = handleVoiceCommand command p2 snap)
    ∧ (votingMarkers (snap 0) = false →
      handleVoiceCommand command (strL "login") snap
        = .login (handleLoginCommands (normalizeCommand command) (snap 0))
      ∧ handleVoiceCommand command (strL "home") snap
        = .home (handleHomeCommands (normalizeCommand command) (snap 0))
      ∧ handleVoiceCommand command (strL "voting") snap
        = .voting (handleVotingCommands (normalizeCommand command) snap)
      ∧ handleVoiceCommand command (strL "face-verification") snap
        = .face (handleFaceVerificationCommands (normalizeCommand command) (snap 0))
      ∧ handleVoiceCommand command (strL "profile") snap = .noHandler) := by
  constructor
  · intro h
    unfold handleVoiceCommand
    rw [if_pos h, if_pos h]
    exact ⟨rfl, rfl⟩
  · intro h
    have h2 : ¬ votingMarkers (snap 0) = true := by simp [h]
    have hvb : (snap 0).verifyBtn = false := by
      revert h
      unfold votingMarkers
      rcases (snap 0).verifyBtn <;> simp
    have hvs : (snap 0).votingSection = false := by
      revert h
      unfold votingMarkers
      rcases (snap 0).votingSection <;> simp
    refine ⟨?_, ?_, ?_, ?_, ?_⟩
    · unfold handleVoiceCommand
      rw [if_neg h2, if_pos rfl]
    · unfold handleVoiceCommand
      rw [if_neg h2, if_neg (show ¬ strL "home" = strL "login" from by decide), if_pos rfl]
    · unfold handleVoiceCommand
      rw [if_neg h2, if_neg (show ¬ strL "voting" = strL "login" from by decide),
        if_neg (show ¬ strL "voting" = strL "home" from by decide), if_pos rfl]
    · unfold handleVoiceCommand
      rw [if_neg h2, if_neg (show ¬ strL "face-verification" = strL "login" from by decide),
        if_neg (show ¬ strL "face-verification" = strL "home" from by decide),
        if_neg (show ¬ strL "face-verification" = strL "voting" from by decide), if_pos rfl]
    · unfold handleVoiceCommand
      rw [if_neg h2, if_neg (show ¬ strL "profile" = strL "login" from by decide),
        if_neg (show ¬ strL "profile" = strL "home" from by decide),
        if_neg (show ¬ strL "profile" = strL "voting" from by decide),
        if_neg (show ¬ strL "profile" = strL "face-verification" from by decide)]
      rw [hvb, hvs]
      rw [if_neg (by simp)]

theorem router_override_witness :
    handleVoiceCommand (strL "read candidate list") (strL "home") snapVote7
      = .voting (handleVotingCommands (normalizeCommand (strL "read candidate list")) snapVote7)
    ∧ handleVoiceCommand (strL "read candidate list") (strL "home") snapVote7
      = handleVoiceCommand (strL "read candidate list") (strL "login") snapVote7 :=
  (router_override (strL "read candidate list") (strL "home") (strL "login") snapVote7).1
    (by decide)

/-- Claim C4: vote-button resolution makes at most two lookup attempts — if
    the first finds the target it is clicked with spoken feedback, if only
    the retry finds it the action still proceeds with spoken feedback, and if
    both fail the outcome is a spoken "candidate not found" report; the
    result depends only on the first two surface snapshots (no third
    attempt), and every resolution outcome speaks something. -/
theorem resolver_retry (n : Nat) (snap snap2 : Nat → Surface) :
    (∀ t, findVoteButton (snap 0) n = some t → resolveVote n snap = .clicked t)
    ∧ (∀ t, findVoteButton (snap 0) n = none → findVoteButton (snap 1) n = some t →
        resolveVote n snap = .clickedRetry t)
    ∧ (findVoteButton (snap 0) n = none → findVoteButton (snap 1) n = none →
        resolveVote n snap = .notFound)
    ∧ (snap 0 = snap2 0 → snap 1 = snap2 1 → resolveVote n snap = resolveVote n snap2)
    ∧ voteSpeech n (resolveVote n snap) ≠ [] := by
  refine ⟨?_, ?_, ?_, ?_, ?_⟩
  · intro t h
    simp [resolveVote, h]
  · intro t h h2
    simp [resolveVote, h, h2]
  · intro h h2
    simp [resolveVote, h, h2]
  · intro h h2
    simp only [resolveVote, h, h2]
  · rcases h : findVoteButton (snap 0) n with _ | t
    · rcases h2 : findVoteButton (snap 1) n with _ | t2
      · simp [resolveVote, voteSpeech, h, h2]
      · simp [resolveVote, voteSpeech, h, h2]
    · simp [resolveVote, voteSpeech, h]

/-- Surface pair for the retry witness: nothing at dispatch time, candidate
    7's button present at the retried lookup. -/
def snapRetry7 : Nat → Surface := fun k => if k = 0 then surfPlain else surfVote7

theorem resolver_retry_witness : resolveVote 7 snapRetry7 = .clickedRetry 70 :=
  (resolver_retry 7 snapRetry7 snapRetry7).2.1 70 (by decide) (by decide)

/-- Claim C5 (amended): the modal confirm/cancel target is resolved by the
    ordered five-selector chain with the first non-empty match winning (the
    characterizations below), but chain exhaustion is not always reported:
    for confirm the user is prompted to select a candidate only when the
    voting section is visible and otherwise nothing is spoken, and for
    cancel exhaustion simply falls through to the remaining stages of the
    handler. -/
theorem modal_chain (q : Nat → Option Nat) (i t : Nat) (cmd : Str) (snap : Nat → Surface) :
    (resolveChain q = some (i, t) ↔ (i < 5 ∧ q i = some t ∧ ∀ j, j < i → q j = none))
    ∧ (resolveChain q = none ↔ ∀ j, j < 5 → q j = none)
    ∧ (verifyPhrase cmd = false → confirmPhrase cmd = true →
        resolveChain (snap 0).qConfirm = none →
        (isVotingVisible (snap 0) = true → handleVotingCommands cmd snap = .confirmPrompt)
        ∧ (isVotingVisible (snap 0) = false →
            handleVotingCommands cmd snap = .confirmSilent
            ∧ speechOf (handleVotingCommands cmd snap) = []))
    ∧ (verifyPhrase cmd = false → confirmPhrase cmd = false → cancelPhrase cmd = true →
        resolveChain (snap 0).qCancel = none →
        handleVotingCommands cmd snap =
          (match ordinalStage cmd snap with
           | some o => o
           | none => tailStage cmd (snap 0))) := by
  refine ⟨?_, ?_, ?_, ?_⟩
  · constructor
    · intro h
      rcases h0 : q 0 with _ | t0
      · rcases h1 : q 1 with _ | t1
        · rcases h2 : q 2 with _ | t2
          · rcases h3 : q 3 with _ | t3
            · rcases h4 : q 4 with _ | t4
              · simp [resolveChain, h0, h1, h2, h3, h4] at h
              · simp [resolveChain, h0, h1, h2, h3, h4] at h
                obtain ⟨rfl, rfl⟩ := h
                refine ⟨by omega, h4, ?_⟩
                intro j hj
                interval_cases j <;> assumption
            · simp [resolveChain, h0, h1, h2, h3] at h
              obtain ⟨rfl, rfl⟩ := h
              refine ⟨by omega, h3, ?_⟩
              intro j hj
              interval_cases j <;> assumption
          · simp [resolveChain, h0, h1, h2] at h
            obtain ⟨rfl, rfl⟩ := h
            refine ⟨by omega, h2, ?_⟩
            intro j hj
            interval_cases j <;> assumption
        · simp [resolveChain, h0, h1] at h
          obtain ⟨rfl, rfl⟩ := h
          refine ⟨by omega, h1, ?_⟩
          intro j hj
          interval_cases j
          exact h0
      · simp [resolveChain, h0] at h
        obtain ⟨rfl, rfl⟩ := h
        refine ⟨by omega, h0, ?_⟩
        intro j hj
        exact absurd hj (by omega)
    · rintro ⟨hi5, hqi, hlt⟩
      interval_cases i
      · simp [resolveChain, hqi]
      · simp [resolveChain, hlt 0 (by omega), hqi]
      · simp [resolveChain, hlt 0 (by omega), hlt 1 (by omega), hqi]
      · simp [resolveChain, hlt 0 (by omega), hlt 1 (by omega), hlt 2 (by omega), hqi]
      · simp [resolveChain, hlt 0 (by omega), hlt 1 (by omega), hlt 2 (by omega),
          hlt 3 (by omega), hqi]
  · constructor
    · intro h
      rcases h0 : q 0 with _ | t0
      · rcases h1 : q 1 with _ | t1
        · rcases h2 : q 2 with _ | t2
          · rcases h3 : q 3 with _ | t3
            · rcases h4 : q 4 with _ | t4
              · intro j hj
                interval_cases j <;> assumption
              · simp [resolveChain, h0, h1, h2, h3, h4] at h
            · simp [resolveChain, h0, h1, h2, h3] at h
          · simp [resolveChain, h0, h1, h2] at h
        · simp [resolveChain, h0, h1] at h
      · simp [resolveChain, h0] at h
    · intro h
      simp [resolveChain, h 0 (by omega), h 1 (by omega), h 2 (by omega), h 3 (by omega),
        h 4 (by omega)]
  · intro hvf hcf hchain
    have hvstage : verifyStage cmd (snap 0) = none := by simp [verifyStage, hvf]
    constructor
    · intro hvis
      simp [handleVotingCommands, hvstage, confirmStage, hcf, hchain, hvis]
    · intro hvis
      have hout : handleVotingCommands cmd snap = .confirmSilent := by
        simp [handleVotingCommands, hvstage, confirmStage, hcf, hchain, hvis]
      exact ⟨hout, by rw [hout]; rfl⟩
  · intro hvf hcf hxf hchain
    have hvstage : verifyStage cmd (snap 0) = none := by simp [verifyStage, hvf]
    have hcstage : confirmStage cmd (snap 0) = none := by simp [confirmStage, hcf]
    have hxstage : cancelStage cmd (snap 0) = none := by simp [cancelStage, hxf, hchain]
    simp [handleVotingCommands, hvstage, hcstage, hxstage]

theorem modal_chain_witness :
    handleVotingCommands (strL "confirm") snapVote7 = .confirmPrompt :=
  ((modal_chain (fun _ => none) 0 0 (strL "confirm") snapVote7).2.2.1 (by decide) (by decide)
    (by decide)).1 (by decide)

/-- Claim C5 counterexample: the command "confirm" with the modal chain
    exhausted and the voting section not visible is dropped without any
    speech — the outcome is not reported to the user. -/
theorem modal_silent_cx :
    handleVotingCommands (strL "confirm") snapPlain = .confirmSilent
    ∧ speechOf (handleVotingCommands (strL "confirm") snapPlain) = [] :=
  ⟨by decide, by decide⟩

/-- Claim C6: on an engine error event, a transient error kind (`no-speech`
    or `aborted`) with always-on enabled schedules exactly one delayed
    restart, speaks nothing, and leaves the state unchanged; the
    permission-denied kind (`not-allowed` in the source) disables always-on
    mode, speaks an explanation, schedules no restart, and a subsequent
    engine-ended event on the resulting state schedules no restart either —
    the session stays stopped until the user re-enables it. -/
theorem onerror_policy (st : VoiceState) (err : Str) :
    (st.isAlwaysOn = true → err = strL "no-speech" ∨ err = strL "aborted" →
      onError err st = { state := st, restartsScheduled := 1, spoken := [] })
    ∧ (err = strL "not-allowed" →
      (onError err st).state.isAlwaysOn = false
      ∧ (onError err st).spoken = [.micDenied]
      ∧ (onError err st).restartsScheduled = 0
      ∧ (onEnd (onError err st).state).2 = 0) := by
  constructor
  · intro h1 h2
    unfold onError
    rw [if_pos ⟨h1, h2⟩]
  · intro h
    subst h
    have hne : ¬ (st.isAlwaysOn = true ∧
        (strL "not-allowed" = strL "no-speech" ∨ strL "not-allowed" = strL "aborted")) := by
      rintro ⟨_, h2 | h2⟩ <;> exact absurd h2 (by decide)
    unfold onError
    rw [if_neg hne, if_pos rfl]
    exact ⟨rfl, rfl, rfl, by simp [onEnd]⟩

theorem onerror_policy_witness :
    onError (strL "no-speech") ⟨true, true⟩
      = { state := ⟨true, true⟩, restartsScheduled := 1, spoken := [] }
    ∧ (onError (strL "not-allowed") ⟨true, true⟩).state.isAlwaysOn = false :=
  ⟨(onerror_policy ⟨true, true⟩ (strL "no-speech")).1 rfl (Or.inl rfl),
   ((onerror_policy ⟨true, true⟩ (strL "not-allowed")).2 rfl).1⟩

/-- Claim C8: the dispatch of a recognized transcript runs inside the result
    callback's try/catch — a dispatcher that raises is caught, the corrective
    message is spoken, and the session state is untouched; the callback's
    total return type shows that no exception reaches the host page. -/
theorem onresult_catches (st : VoiceState) (dispatch : Str → Except Str (List SpeechMsg))
    (transcript : Str) :
    (onResult st dispatch transcript).state = st
    ∧ (∀ e, dispatch transcript = .error e →
        (onResult st dispatch transcript).spoken = [.dispatchError]) := by
  constructor
  · rcases h : dispatch transcript with e | m <;> simp [onResult, h]
  · intro e h
    simp [onResult, h]

theorem onresult_catches_witness :
    (onResult ⟨true, true⟩ (fun _ => .error (strL "boom")) (strL "vote 1")).spoken
      = [.dispatchError] :=
  (onresult_catches ⟨true, true⟩ (fun _ => .error (strL "boom")) (strL "vote 1")).2
    (strL "boom") rfl

/-- Claim C9: immediately after `markUserAsVoted a`, `hasUserVoted a` is
    true; `hasUserVoted` is true exactly when the stored per-user flag is
    the string "true" (so false when the flag was never set, and marking a
    different user does not affect it); and a successful `storeVote` both
    appends the vote record and establishes `hasUserVoted`. -/
theorem voted_flag (st : Store) (a b candidate : Str) (ts : Nat) :
    hasUserVoted (markUserAsVoted st a) a = true
    ∧ (hasUserVoted st a = true ↔ getItem st (votedKey a) = some (strL "true"))
    ∧ (getItem st (votedKey a) = none → hasUserVoted st a = false)
    ∧ (a ≠ b → hasUserVoted (markUserAsVoted st b) a = hasUserVoted st a)
    ∧ (storeVote st a candidate ts).1 = true
    ∧ (storeVote st a candidate ts).2.votes = st.votes ++ [⟨a, candidate, ts⟩]
    ∧ hasUserVoted (storeVote st a candidate ts).2 a = true := by
  have hget : ∀ (s2 : Store) (k v : Str), getItem (setItem s2 k v) k = some v := by
    intro s2 k v
    simp [getItem, setItem, List.find?]
  have hmark : ∀ s2 : Store, hasUserVoted (markUserAsVoted s2 a) a = true := by
    intro s2
    simp [hasUserVoted, markUserAsVoted, hget]
  refine ⟨hmark st, ?_, ?_, ?_, rfl, rfl, hmark _⟩
  · simp [hasUserVoted]
  · intro h
    simp [hasUserVoted, h]
  · intro hab
    have hkey : votedKey b ≠ votedKey a := by
      intro hk
      exact hab (List.append_cancel_left hk).symm
    have hbeq : (votedKey b == votedKey a) = false := beq_eq_false_iff_ne.mpr hkey
    have hskip : getItem (setItem st (votedKey b) (strL "true")) (votedKey a)
        = getItem st (votedKey a) := by
      simp [getItem, setItem, List.find?, hbeq]
    simp only [hasUserVoted, markUserAsVoted, hskip]

/-- The empty persistent store. -/
def storeEmpty : Store := ⟨[], []⟩

theorem voted_flag_witness :
    hasUserVoted storeEmpty (strL "123456789012") = false :=
  (voted_flag storeEmpty (strL "123456789012") (strL "x") (strL "Alice") 0).2.2.1 rfl

/-- Claim C10: `validateLogin` succeeds exactly when the trimmed aadhar is
    twelve digits and the trimmed password is nonempty; when invalid, the
    checks run in the fixed order empty-aadhar, empty-password, 12-digit
    format, and the message reports the first failing check.  The embedded
    function is total and pure, matching the source's lack of exceptions and
    side effects. -/
theorem validateLogin_spec (aadhar password : Str) :
    ((validateLogin aadhar password).valid = true ↔
      (is12Digits (trim aadhar) = true ∧ trim password ≠ []))
    ∧ (trim aadhar = [] → validateLogin aadhar password = ⟨false, msgEnterAadhar⟩)
    ∧ (trim aadhar ≠ [] → trim password = [] →
        validateLogin aadhar password = ⟨false, msgEnterPassword⟩)
    ∧ (trim aadhar ≠ [] → trim password ≠ [] → is12Digits (trim aadhar) = false →
        validateLogin aadhar password = ⟨false, msgAadhar12⟩)
    ∧ ((validateLogin aadhar password).valid = true →
        validateLogin aadhar password = ⟨true, msgLoginOk⟩) := by
  unfold validateLogin
  split_ifs with h1 h2 h3
  · refine ⟨?_, fun _ => rfl, ?_, ?_, ?_⟩
    · constructor
      · intro hF
        exact absurd hF (by decide)
      · rintro ⟨h12, _⟩
        exact absurd h1 (is12Digits_ne_nil (h1 ▸ h12))
    · intro ha _
      exact absurd h1 ha
    · intro ha _ _
      exact absurd h1 ha
    · intro hF
      exact absurd hF (by decide)
  · refine ⟨?_, ?_, fun _ _ => rfl, ?_, ?_⟩
    · constructor
      · intro hF
        exact absurd hF (by decide)
      · rintro ⟨_, hp⟩
        exact absurd h2 hp
    · intro ha
      exact absurd ha h1
    · intro _ hp _
      exact absurd h2 hp
    · intro hF
      exact absurd hF (by decide)
  · refine ⟨?_, ?_, ?_, fun _ _ _ => rfl, ?_⟩
    · constructor
      · intro hF
        exact absurd hF (by decide)
      · rintro ⟨h12, _⟩
        exact absurd h12 (by simp [h3])
    · intro ha
      exact absurd ha h1
    · intro _ hp
      exact absurd hp h2
    · intro hF
      exact absurd hF (by decide)
  · have h12 : is12Digits (trim aadhar) = true := by
      rcases hb : is12Digits (trim aadhar)
      · exact absurd hb h3
      · rfl
    refine ⟨?_, ?_, ?_, ?_, fun _ => rfl⟩
    · exact ⟨fun _ => ⟨h12, h2⟩, fun _ => rfl⟩
    · intro ha
      exact absurd ha h1
    · intro _ hp
      exact absurd hp h2
    · intro _ _ hb
      exact absurd hb (by simp [h12])

theorem validateLogin_spec_witness :
    validateLogin (strL "  ") (strL "pw") = ⟨false, msgEnterAadhar⟩ :=
  (validateLogin_spec (strL "  ") (strL "pw")).2.1 (by decide)
